import Mathlib

/-!
Verification of the kubeadm `upload-config` phase
(`cmd/kubeadm/app/cmd/phases/uploadconfig.go`).

The Go file is a small orchestrator: a duck-typed data contract
(`uploadConfigData`), a resolve helper (`getUploadConfigData`), two run
functions (`runUploadKubeadmConfig`, `runUploadKubeletConfig`) that drive
external collaborators, and a phase-tree constructor
(`NewUploadConfigPhase`).

Embedding choices:
- Go `error` values are modelled by their rendered message string
  (`GoError`); `github.com/pkg/errors.Wrap(err, msg)` renders as
  `msg ++ ": " ++ err`.
- The three external collaborators (`uploadconfig.UploadConfiguration`,
  `kubeletphase.CreateConfigMap`, `patchnodephase.AnnotateCRISocket`) are
  out of scope of the source file; they are an environment parameter
  (`Collaborators`) giving each call's outcome.
- Every accessor and collaborator invocation is recorded in an `Event`
  trace, so call-count and call-order properties can be stated.
- `workflow.RunData` is an opaque interface value; the only observation
  this code makes of it is the type assertion to `uploadConfigData`,
  modelled as an `Option uploadConfigData`.
-/

namespace UploadConfig

/-- A Go `error` value, modelled by its rendered message string.
`nil` errors are represented by `Option.none` at use sites. -/
abbrev GoError := String

/-- `github.com/pkg/errors.Wrap(err, message)`: the resulting error's
message is `message ++ ": " ++ err.Error()`. -/
def errorsWrap (err : GoError) (message : String) : GoError :=
  message ++ ": " ++ err

/-- `github.com/pkg/errors.New(message)`. -/
def errorsNew (message : String) : GoError :=
  message

/-- Modelled from the spec: the node-registration sub-record of the
(external) `kubeadmapi.InitConfiguration` type, with a node name and a
container-runtime socket identifier; only these two fields are read by
the source file (`cfg.NodeRegistration.Name`,
`cfg.NodeRegistration.CRISocket`). -/
structure NodeRegistrationOptions where
  Name : String
  CRISocket : String
  deriving DecidableEq, Repr

/-- Modelled from the spec: the (external) `kubeadmapi.InitConfiguration`
record, opaque to this code except for its node-registration sub-record. -/
structure InitConfiguration where
  NodeRegistration : NodeRegistrationOptions
  deriving DecidableEq, Repr

/-- An opaque handle standing for a `clientset.Interface` value. -/
structure ClientHandle where
  id : Nat
  deriving DecidableEq, Repr

/-- Observable events of one run-function invocation: accessor calls on
the data contract and collaborator calls, with the arguments passed. -/
inductive Event where
  | cfgCall : Event
  | clientCall : Event
  | uploadConfigurationCall (cfg : InitConfiguration) (client : ClientHandle) : Event
  | createConfigMapCall (cfg : InitConfiguration) (client : ClientHandle) : Event
  | annotateCRISocketCall (client : ClientHandle) (nodeName : String) (criSocket : String) : Event
  deriving DecidableEq, Repr

/-- Outcomes of the three external collaborator operations
(`uploadconfig.UploadConfiguration`, `kubeletphase.CreateConfigMap`,
`patchnodephase.AnnotateCRISocket`): for given arguments, `none` means
the call succeeds, `some e` that it fails with error `e`. -/
structure Collaborators where
  UploadConfiguration : InitConfiguration → ClientHandle → Option GoError
  CreateConfigMap : InitConfiguration → ClientHandle → Option GoError
  AnnotateCRISocket : ClientHandle → String → String → Option GoError

/-- The duck-typed data contract (source interface `uploadConfigData`):
`Cfg()` is a pure accessor and `Client()` may fail.  The fields hold what
each accessor would produce; the accessor methods below also emit the
corresponding trace event. -/
structure uploadConfigData where
  cfgVal : InitConfiguration
  clientVal : Except GoError ClientHandle

/-- The `Cfg()` accessor: yields the configuration and records the call. -/
def uploadConfigData.Cfg (d : uploadConfigData) : InitConfiguration × List Event :=
  (d.cfgVal, [Event.cfgCall])

/-- The `Client()` accessor: yields the client handle or an error, and
records the call. -/
def uploadConfigData.Client (d : uploadConfigData) :
    (Except GoError ClientHandle) × List Event :=
  (d.clientVal, [Event.clientCall])

/-- `workflow.RunData` is `interface{}`; the sole observation made of it
is the type assertion `c.(uploadConfigData)`, which either yields a value
of the contract (`some`) or fails (`none`). -/
structure RunData where
  asUploadConfigData : Option uploadConfigData

/-- Source `getUploadConfigData`: type-asserts the context, then calls
`Cfg()` then `Client()`; on assertion failure returns the fixed error,
on `Client()` failure propagates that error untouched (returning nil for
both the config and the client), otherwise returns both values. -/
def getUploadConfigData (c : RunData) :
    ((Option InitConfiguration × Option ClientHandle × Option GoError) × List Event) :=
  match c.asUploadConfigData with
  | none =>
      ((none, none, some (errorsNew "upload-config phase invoked with an invalid data struct")), [])
  | some data =>
      match data.Cfg, data.Client with
      | (_cfg, trCfg), (Except.error err, trCl) =>
          ((none, none, some err), trCfg ++ trCl)
      | (cfg, trCfg), (Except.ok client, trCl) =>
          ((some cfg, some client, none), trCfg ++ trCl)

/-- Source `runUploadKubeadmConfig`: resolve config and client, then call
the `UploadConfiguration` collaborator; on its failure wrap the error with
the fixed prefix string.  (The `klog` diagnostic line has no observable
effect and is not modelled.)  The final catch-all branch is unreachable:
`getUploadConfigData` never returns a nil error together with a nil
config or client (see `getUploadConfigData_ok_shape`). -/
def runUploadKubeadmConfig (co : Collaborators) (c : RunData) :
    Option GoError × List Event :=
  match getUploadConfigData c with
  | ((_, _, some err), tr) => (some err, tr)
  | ((some cfg, some client, none), tr) =>
      let tr2 := tr ++ [Event.uploadConfigurationCall cfg client]
      match co.UploadConfiguration cfg client with
      | some err => (some (errorsWrap err "error uploading the kubeadm ClusterConfiguration"), tr2)
      | none => (none, tr2)
  | ((_, _, none), tr) => (none, tr)

/-- Source `runUploadKubeletConfig`: resolve config and client, call the
`CreateConfigMap` collaborator (wrapping its failure), then the
`AnnotateCRISocket` collaborator with the client, the node name and the
CRI socket from the config's node registration (wrapping its failure).
The final catch-all branch is unreachable, as in `runUploadKubeadmConfig`. -/
def runUploadKubeletConfig (co : Collaborators) (c : RunData) :
    Option GoError × List Event :=
  match getUploadConfigData c with
  | ((_, _, some err), tr) => (some err, tr)
  | ((some cfg, some client, none), tr) =>
      let tr2 := tr ++ [Event.createConfigMapCall cfg client]
      match co.CreateConfigMap cfg client with
      | some err => (some (errorsWrap err "error creating kubelet configuration ConfigMap"), tr2)
      | none =>
          let tr3 := tr2 ++
            [Event.annotateCRISocketCall client cfg.NodeRegistration.Name cfg.NodeRegistration.CRISocket]
          match co.AnnotateCRISocket client cfg.NodeRegistration.Name cfg.NodeRegistration.CRISocket with
          | some err => (some (errorsWrap err "Error writing Crisocket information for the control-plane node"), tr3)
          | none => (none, tr3)
  | ((_, _, none), tr) => (none, tr)

/-- The `workflow.Phase` record: a named, composable unit of work with
aliases, description texts, a fixed flag list, an optional run function
and an ordered list of child phases.  (Run functions are stored together
with their collaborator environment parameter.) -/
inductive Phase where
  | mk
      (Name : String)
      (Aliases : List String)
      (Short : String)
      (Long : String)
      (Example : String)
      (Run : Option (Collaborators → RunData → Option GoError × List Event))
      (CmdFlags : List String)
      (Phases : List Phase)

def Phase.Name : Phase → String
  | .mk n _ _ _ _ _ _ _ => n

def Phase.Aliases : Phase → List String
  | .mk _ a _ _ _ _ _ _ => a

def Phase.Short : Phase → String
  | .mk _ _ s _ _ _ _ _ => s

def Phase.Long : Phase → String
  | .mk _ _ _ l _ _ _ _ => l

def Phase.Example : Phase → String
  | .mk _ _ _ _ e _ _ _ => e

def Phase.Run : Phase → Option (Collaborators → RunData → Option GoError × List Event)
  | .mk _ _ _ _ _ r _ _ => r

def Phase.CmdFlags : Phase → List String
  | .mk _ _ _ _ _ _ f _ => f

def Phase.Phases : Phase → List Phase
  | .mk _ _ _ _ _ _ _ ps => ps

/-- Modelled from the spec: `options.CfgPath`, the flag naming the path to
a configuration file (external `options` package constant). -/
def CfgPath : String := "config"

/-- Modelled from the spec: `options.KubeconfigPath`, the flag naming the
path to a client-credentials (kubeconfig) file (external `options`
package constant). -/
def KubeconfigPath : String := "kubeconfig"

/-- Source `getUploadConfigPhaseFlags`: the two flags recognized by both
children. -/
def getUploadConfigPhaseFlags : List String :=
  [CfgPath, KubeconfigPath]

/-- The long description of the `kubeadm` child (source
`uploadKubeadmConfigLongDesc`; the external `normalizer` formatting and
the interpolated constant names are rendered as plain text). -/
def uploadKubeadmConfigLongDesc : String :=
  "Uploads the kubeadm ClusterConfiguration to a ConfigMap called kubeadm-config in the kube-system namespace. This enables correct configuration of system components and a seamless user experience when upgrading. Alternatively, you can use kubeadm config."

/-- The example text of the `kubeadm` child (source
`uploadKubeadmConfigExample`). -/
def uploadKubeadmConfigExample : String :=
  "# uploads the configuration of your cluster\nkubeadm alpha phase upload-config --config=myConfig.yaml"

/-- The long description of the `kubelet` child (source
`uploadKubeletConfigLongDesc`). -/
def uploadKubeletConfigLongDesc : String :=
  "Uploads kubelet configuration extracted from the kubeadm InitConfiguration object to a ConfigMap of the form kubelet-config-1.X in the cluster, where X is the minor version of the current (API Server) Kubernetes version."

/-- The example text of the `kubelet` child (source
`uploadKubeletConfigExample`). -/
def uploadKubeletConfigExample : String :=
  "# Uploads the kubelet configuration from the kubeadm Config file to a ConfigMap in the cluster.\nkubeadm init phase upload-config kubelet --config kubeadm.yaml"

/-- The long description of the root node (external constant
`cmdutil.MacroCommandLongDescription`). -/
def MacroCommandLongDescription : String :=
  "This command is not meant to be run standalone. See list of available subcommands."

/-- Source `NewUploadConfigPhase`: the `upload-config` phase tree with its
two children `kubeadm` and `kubelet`. -/
def NewUploadConfigPhase : Phase :=
  .mk "upload-config" ["uploadconfig"]
    "Uploads the kubeadm and kubelet configuration to a ConfigMap"
    MacroCommandLongDescription
    ""
    none
    []
    [ .mk "kubeadm"
        []
        "Uploads the kubeadm ClusterConfiguration to a ConfigMap"
        uploadKubeadmConfigLongDesc
        uploadKubeadmConfigExample
        (some runUploadKubeadmConfig)
        getUploadConfigPhaseFlags
        [],
      .mk "kubelet"
        []
        "Uploads the kubelet component config to a ConfigMap"
        uploadKubeletConfigLongDesc
        uploadKubeletConfigExample
        (some runUploadKubeletConfig)
        getUploadConfigPhaseFlags
        [] ]

/-! ### Trace observation helpers -/

/-- Is the event an invocation of the annotation collaborator? -/
def isAnnotateCall : Event → Bool
  | .annotateCRISocketCall _ _ _ => true
  | _ => false

/-- Is the event an invocation of the annotation collaborator with the
given node name and CRI socket? -/
def isAnnotateCallWith (nodeName criSocket : String) : Event → Bool
  | .annotateCRISocketCall _ n s => n = nodeName && s = criSocket
  | _ => false

/-- Is the event an invocation of any of the three collaborators? -/
def isCollaboratorCall : Event → Bool
  | .uploadConfigurationCall _ _ => true
  | .createConfigMapCall _ _ => true
  | .annotateCRISocketCall _ _ _ => true
  | _ => false

/-- The client handle an event passes to a collaborator, if any. -/
def eventClientOf : Event → Option ClientHandle
  | .uploadConfigurationCall _ client => some client
  | .createConfigMapCall _ client => some client
  | .annotateCRISocketCall client _ _ => some client
  | _ => none

/-- The configuration value an event forwards to a collaborator, if any. -/
def eventCfgOf : Event → Option InitConfiguration
  | .uploadConfigurationCall cfg _ => some cfg
  | .createConfigMapCall cfg _ => some cfg
  | _ => none

/-- Number of occurrences of a given event in a trace. -/
def countEvent (ev : Event) (tr : List Event) : Nat :=
  tr.countP (fun x => decide (x = ev))

/-! ### Concrete fixtures used by witnesses -/

/-- The configuration of the spec's end-to-end scenario. -/
def cfgW : InitConfiguration :=
  ⟨⟨"node-1", "unix:///run/x.sock"⟩⟩

/-- A concrete client handle. -/
def clientW : ClientHandle := ⟨0⟩

/-- A contract value whose client resolution succeeds. -/
def dGood : uploadConfigData := ⟨cfgW, Except.ok clientW⟩

/-- A context passing the capability check with a resolvable client. -/
def cGood : RunData := ⟨some dGood⟩

/-- A contract value whose client resolution fails. -/
def dBadClient : uploadConfigData := ⟨cfgW, Except.error "no reachable control plane"⟩

/-- A context passing the capability check whose client resolution fails. -/
def cBadClient : RunData := ⟨some dBadClient⟩

/-- A context failing the capability check. -/
def cNoData : RunData := ⟨none⟩

/-- Collaborators that always succeed. -/
def coAllOK : Collaborators :=
  ⟨fun _ _ => none, fun _ _ => none, fun _ _ _ => none⟩

/-- Collaborators where only the config-map creation fails. -/
def coFailCM : Collaborators :=
  ⟨fun _ _ => none, fun _ _ => some "quota exceeded", fun _ _ _ => none⟩

/-- Collaborators where only the cluster-configuration upload fails. -/
def coFailUpload : Collaborators :=
  ⟨fun _ _ => some "boom", fun _ _ => none, fun _ _ _ => none⟩

/-- Collaborators where only the annotation fails. -/
def coFailAnnotate : Collaborators :=
  ⟨fun _ _ => none, fun _ _ => none, fun _ _ _ => some "patch failed"⟩

/-! ### Basic shape lemma -/

/-- `getUploadConfigData` never returns a nil error together with a nil
configuration or client: the catch-all branches of the run functions are
unreachable. -/
theorem getUploadConfigData_ok_shape (c : RunData) :
    (getUploadConfigData c).1.2.2 = none →
    ∃ cfg client, (getUploadConfigData c).1 = (some cfg, some client, none) := by
  obtain ⟨data⟩ := c
  cases data with
  | none => simp [getUploadConfigData]
  | some d =>
      cases hcl : d.clientVal with
      | error e =>
          simp [getUploadConfigData, uploadConfigData.Cfg, uploadConfigData.Client, hcl]
      | ok cl =>
          simp [getUploadConfigData, uploadConfigData.Cfg, uploadConfigData.Client, hcl]

/-! ### Claim theorems -/

/-- C1: for every execution context passing the capability check whose
client resolves, if the create-node-component-config-map collaborator
fails with error `e`, the kubelet run function returns `e` wrapped with
the prefix string "error creating kubelet configuration ConfigMap" and
the annotation collaborator is never invoked (zero annotate events in
the trace). -/
theorem C1_configmap_failure_skips_annotate
    (co : Collaborators) (c : RunData) (d : uploadConfigData) (cl : ClientHandle)
    (e : GoError)
    (hd : c.asUploadConfigData = some d)
    (hcl : d.clientVal = Except.ok cl)
    (hcm : co.CreateConfigMap d.cfgVal cl = some e) :
    (runUploadKubeletConfig co c).1
        = some (errorsWrap e "error creating kubelet configuration ConfigMap")
    ∧ (runUploadKubeletConfig co c).2.countP isAnnotateCall = 0 := by
  simp [runUploadKubeletConfig, getUploadConfigData, uploadConfigData.Cfg,
    uploadConfigData.Client, hd, hcl, hcm, isAnnotateCall]

theorem C1_witness :
    (runUploadKubeletConfig coFailCM cGood).1
        = some (errorsWrap "quota exceeded" "error creating kubelet configuration ConfigMap")
    ∧ (runUploadKubeletConfig coFailCM cGood).2.countP isAnnotateCall = 0 :=
  C1_configmap_failure_skips_annotate coFailCM cGood dGood clientW "quota exceeded"
    rfl rfl rfl

/-- C2: for every execution context that resolves successfully, the
kubeadm run function returns nil when the upload collaborator succeeds;
when it fails with error `e` it returns `e` wrapped with the fixed prefix
string "error uploading the kubeadm ClusterConfiguration", whose message
both begins with the prefix and ends with `e`'s content. -/
theorem C2_kubeadm_upload_wrap
    (co : Collaborators) (c : RunData) (d : uploadConfigData) (cl : ClientHandle)
    (hd : c.asUploadConfigData = some d)
    (hcl : d.clientVal = Except.ok cl) :
    (co.UploadConfiguration d.cfgVal cl = none →
        (runUploadKubeadmConfig co c).1 = none)
    ∧ ∀ e : GoError, co.UploadConfiguration d.cfgVal cl = some e →
        (runUploadKubeadmConfig co c).1
            = some (errorsWrap e "error uploading the kubeadm ClusterConfiguration")
        ∧ (∃ rest, errorsWrap e "error uploading the kubeadm ClusterConfiguration"
              = "error uploading the kubeadm ClusterConfiguration" ++ rest)
        ∧ (∃ front, errorsWrap e "error uploading the kubeadm ClusterConfiguration"
              = front ++ e) := by
  constructor
  · intro h
    simp [runUploadKubeadmConfig, getUploadConfigData, uploadConfigData.Cfg,
      uploadConfigData.Client, hd, hcl, h]
  · intro e he
    refine ⟨?_, ⟨": " ++ e, ?_⟩, ⟨"error uploading the kubeadm ClusterConfiguration" ++ ": ", rfl⟩⟩
    · simp [runUploadKubeadmConfig, getUploadConfigData, uploadConfigData.Cfg,
        uploadConfigData.Client, hd, hcl, he]
    · exact String.append_assoc "error uploading the kubeadm ClusterConfiguration" ": " e

theorem C2_witness :
    (runUploadKubeadmConfig coAllOK cGood).1 = none
    ∧ (runUploadKubeadmConfig coFailUpload cGood).1
        = some (errorsWrap "boom" "error uploading the kubeadm ClusterConfiguration") :=
  ⟨(C2_kubeadm_upload_wrap coAllOK cGood dGood clientW rfl rfl).1 rfl,
   ((C2_kubeadm_upload_wrap coFailUpload cGood dGood clientW rfl rfl).2 "boom" rfl).1⟩

/-- C3: for every execution context that resolves successfully, if the
config-map collaborator succeeds and the annotation collaborator fails
with error `e`, the kubelet run function returns `e` wrapped with the
prefix string "Error writing Crisocket information for the control-plane
node"; the config-map collaborator was invoked exactly once, with the
resolved (config, client) pair, and the annotation collaborator was
invoked with the client, the node name and the CRI socket from the
config's node-registration record. -/
theorem C3_annotate_failure_wrapped
    (co : Collaborators) (c : RunData) (d : uploadConfigData) (cl : ClientHandle)
    (e : GoError)
    (hd : c.asUploadConfigData = some d)
    (hcl : d.clientVal = Except.ok cl)
    (hcm : co.CreateConfigMap d.cfgVal cl = none)
    (han : co.AnnotateCRISocket cl d.cfgVal.NodeRegistration.Name
        d.cfgVal.NodeRegistration.CRISocket = some e) :
    (runUploadKubeletConfig co c).1
        = some (errorsWrap e "Error writing Crisocket information for the control-plane node")
    ∧ countEvent (Event.createConfigMapCall d.cfgVal cl) (runUploadKubeletConfig co c).2 = 1
    ∧ Event.annotateCRISocketCall cl d.cfgVal.NodeRegistration.Name
        d.cfgVal.NodeRegistration.CRISocket ∈ (runUploadKubeletConfig co c).2 := by
  simp [runUploadKubeletConfig, getUploadConfigData, uploadConfigData.Cfg,
    uploadConfigData.Client, hd, hcl, hcm, han, countEvent]

theorem C3_witness :
    (runUploadKubeletConfig coFailAnnotate cGood).1
        = some (errorsWrap "patch failed" "Error writing Crisocket information for the control-plane node")
    ∧ countEvent (Event.createConfigMapCall dGood.cfgVal clientW)
        (runUploadKubeletConfig coFailAnnotate cGood).2 = 1
    ∧ Event.annotateCRISocketCall clientW dGood.cfgVal.NodeRegistration.Name
        dGood.cfgVal.NodeRegistration.CRISocket ∈ (runUploadKubeletConfig coFailAnnotate cGood).2 :=
  C3_annotate_failure_wrapped coFailAnnotate cGood dGood clientW "patch failed"
    rfl rfl rfl rfl

/-- C4: for every execution context passing the capability check whose
`Client()` accessor fails with error `e`, both run functions return
exactly `e`, unwrapped, and invoke no collaborator (zero collaborator
events in either trace). -/
theorem C4_client_failure_propagated_verbatim
    (co : Collaborators) (c : RunData) (d : uploadConfigData) (e : GoError)
    (hd : c.asUploadConfigData = some d)
    (hcl : d.clientVal = Except.error e) :
    (runUploadKubeadmConfig co c).1 = some e
    ∧ (runUploadKubeadmConfig co c).2.countP isCollaboratorCall = 0
    ∧ (runUploadKubeletConfig co c).1 = some e
    ∧ (runUploadKubeletConfig co c).2.countP isCollaboratorCall = 0 := by
  simp [runUploadKubeadmConfig, runUploadKubeletConfig, getUploadConfigData,
    uploadConfigData.Cfg, uploadConfigData.Client, hd, hcl, isCollaboratorCall]

theorem C4_witness :
    (runUploadKubeadmConfig coAllOK cBadClient).1 = some "no reachable control plane"
    ∧ (runUploadKubeadmConfig coAllOK cBadClient).2.countP isCollaboratorCall = 0
    ∧ (runUploadKubeletConfig coAllOK cBadClient).1 = some "no reachable control plane"
    ∧ (runUploadKubeletConfig coAllOK cBadClient).2.countP isCollaboratorCall = 0 :=
  C4_client_failure_propagated_verbatim coAllOK cBadClient dBadClient
    "no reachable control plane" rfl rfl

/-- C5: for every execution context failing the capability check, the
resolve operation returns the contract-violation error with an empty
trace (so neither `Cfg()` nor `Client()` is called), and both run
functions return that same error without invoking any collaborator. -/
theorem C5_contract_violation_shortcircuits
    (co : Collaborators) (c : RunData)
    (hd : c.asUploadConfigData = none) :
    (getUploadConfigData c).1.2.2
        = some (errorsNew "upload-config phase invoked with an invalid data struct")
    ∧ (getUploadConfigData c).2 = []
    ∧ (runUploadKubeadmConfig co c).1
        = some (errorsNew "upload-config phase invoked with an invalid data struct")
    ∧ (runUploadKubeadmConfig co c).2.countP isCollaboratorCall = 0
    ∧ (runUploadKubeletConfig co c).1
        = some (errorsNew "upload-config phase invoked with an invalid data struct")
    ∧ (runUploadKubeletConfig co c).2.countP isCollaboratorCall = 0 := by
  simp [runUploadKubeadmConfig, runUploadKubeletConfig, getUploadConfigData, hd,
    errorsNew]

theorem C5_witness :
    (getUploadConfigData cNoData).1.2.2
        = some (errorsNew "upload-config phase invoked with an invalid data struct")
    ∧ (getUploadConfigData cNoData).2 = []
    ∧ (runUploadKubeadmConfig coAllOK cNoData).1
        = some (errorsNew "upload-config phase invoked with an invalid data struct")
    ∧ (runUploadKubeadmConfig coAllOK cNoData).2.countP isCollaboratorCall = 0
    ∧ (runUploadKubeletConfig coAllOK cNoData).1
        = some (errorsNew "upload-config phase invoked with an invalid data struct")
    ∧ (runUploadKubeletConfig coAllOK cNoData).2.countP isCollaboratorCall = 0 :=
  C5_contract_violation_shortcircuits coAllOK cNoData rfl

/-- C6: for a resolved configuration whose node registration has name
"node-1" and CRI socket "unix:///run/x.sock", with collaborators that
succeed on the calls the kubelet run function makes, the run function
returns no error and the annotation collaborator is called exactly once
with node name "node-1" and CRI socket "unix:///run/x.sock". -/
theorem C6_end_to_end_success
    (co : Collaborators) (c : RunData) (d : uploadConfigData) (cl : ClientHandle)
    (hd : c.asUploadConfigData = some d)
    (hcl : d.clientVal = Except.ok cl)
    (hname : d.cfgVal.NodeRegistration.Name = "node-1")
    (hsock : d.cfgVal.NodeRegistration.CRISocket = "unix:///run/x.sock")
    (hcm : co.CreateConfigMap d.cfgVal cl = none)
    (han : co.AnnotateCRISocket cl "node-1" "unix:///run/x.sock" = none) :
    (runUploadKubeletConfig co c).1 = none
    ∧ (runUploadKubeletConfig co c).2.countP
        (isAnnotateCallWith "node-1" "unix:///run/x.sock") = 1 := by
  constructor
  · simp [runUploadKubeletConfig, getUploadConfigData, uploadConfigData.Cfg,
      uploadConfigData.Client, hd, hcl, hname, hsock, hcm, han]
  · simp [runUploadKubeletConfig, getUploadConfigData, uploadConfigData.Cfg,
      uploadConfigData.Client, hd, hcl, hname, hsock, hcm, han, isAnnotateCallWith]

theorem C6_witness :
    (runUploadKubeletConfig coAllOK cGood).1 = none
    ∧ (runUploadKubeletConfig coAllOK cGood).2.countP
        (isAnnotateCallWith "node-1" "unix:///run/x.sock") = 1 :=
  C6_end_to_end_success coAllOK cGood dGood clientW rfl rfl rfl rfl rfl rfl

/-- C7: within one kubelet run-function invocation on a context whose
client resolves, the `Client()` accessor is called exactly once (so the
handle is obtained at most once) and every collaborator call in the
trace is passed that same handle — it is never refetched. -/
theorem C7_client_fetched_once_and_reused
    (co : Collaborators) (c : RunData) (d : uploadConfigData) (cl : ClientHandle)
    (hd : c.asUploadConfigData = some d)
    (hcl : d.clientVal = Except.ok cl) :
    countEvent Event.clientCall (runUploadKubeletConfig co c).2 = 1
    ∧ ∀ ev ∈ (runUploadKubeletConfig co c).2, ∀ x,
        eventClientOf ev = some x → x = cl := by
  cases hcm : co.CreateConfigMap d.cfgVal cl with
  | some e =>
      constructor
      · simp [runUploadKubeletConfig, getUploadConfigData, uploadConfigData.Cfg,
          uploadConfigData.Client, hd, hcl, hcm, countEvent]
      · intro ev hev x hx
        simp [runUploadKubeletConfig, getUploadConfigData, uploadConfigData.Cfg,
          uploadConfigData.Client, hd, hcl, hcm] at hev
        rcases hev with h | h | h <;> subst h <;> simp_all [eventClientOf]
  | none =>
      cases han : co.AnnotateCRISocket cl d.cfgVal.NodeRegistration.Name
          d.cfgVal.NodeRegistration.CRISocket with
      | some e =>
          constructor
          · simp [runUploadKubeletConfig, getUploadConfigData, uploadConfigData.Cfg,
              uploadConfigData.Client, hd, hcl, hcm, han, countEvent]
          · intro ev hev x hx
            simp [runUploadKubeletConfig, getUploadConfigData, uploadConfigData.Cfg,
              uploadConfigData.Client, hd, hcl, hcm, han] at hev
            rcases hev with h | h | h | h <;> subst h <;> simp_all [eventClientOf]
      | none =>
          constructor
          · simp [runUploadKubeletConfig, getUploadConfigData, uploadConfigData.Cfg,
              uploadConfigData.Client, hd, hcl, hcm, han, countEvent]
          · intro ev hev x hx
            simp [runUploadKubeletConfig, getUploadConfigData, uploadConfigData.Cfg,
              uploadConfigData.Client, hd, hcl, hcm, han] at hev
            rcases hev with h | h | h | h <;> subst h <;> simp_all [eventClientOf]

theorem C7_witness :
    countEvent Event.clientCall (runUploadKubeletConfig coAllOK cGood).2 = 1 :=
  (C7_client_fetched_once_and_reused coAllOK cGood dGood clientW rfl rfl).1

/-- C8: the phase tree has root "upload-config" with single alias
"uploadconfig" and exactly two children, "kubeadm" and "kubelet" in that
order; each child carries its own (nonempty, distinct) description and
example text, a distinct run function, and exactly the two flags: the
configuration-file path and the kubeconfig path. -/
theorem C8_phase_tree_structure :
    NewUploadConfigPhase.Name = "upload-config"
    ∧ NewUploadConfigPhase.Aliases = ["uploadconfig"]
    ∧ ∃ pa pb, NewUploadConfigPhase.Phases = [pa, pb]
        ∧ pa.Name = "kubeadm" ∧ pb.Name = "kubelet"
        ∧ pa.Short ≠ "" ∧ pa.Long ≠ "" ∧ pa.Example ≠ ""
        ∧ pb.Short ≠ "" ∧ pb.Long ≠ "" ∧ pb.Example ≠ ""
        ∧ pa.Long ≠ pb.Long ∧ pa.Example ≠ pb.Example
        ∧ pa.Run = some runUploadKubeadmConfig
        ∧ pb.Run = some runUploadKubeletConfig
        ∧ runUploadKubeadmConfig ≠ runUploadKubeletConfig
        ∧ pa.CmdFlags = [CfgPath, KubeconfigPath]
        ∧ pb.CmdFlags = [CfgPath, KubeconfigPath]
        ∧ CfgPath ≠ KubeconfigPath := by
  refine ⟨rfl, rfl, _, _, rfl, rfl, rfl, ?_, ?_, ?_, ?_, ?_, ?_, ?_, ?_,
    rfl, rfl, ?_, rfl, rfl, ?_⟩
  all_goals first
    | decide
    | (intro h
       exact absurd (congrArg Prod.fst (congrFun (congrFun h coFailCM) cGood)) (by decide))

/-- C9: the run functions never mutate the resolved `InitConfiguration`:
every configuration value forwarded to a collaborator (in either run
function's trace) is exactly the value `Cfg()` produced, and the node
name and CRI socket passed to the annotation collaborator are exactly
the fields of that same value.  (The embedding is a faithful translation
of the source, which contains no write to the configuration; mutation
could only be observed through what is forwarded to collaborators.) -/
theorem C9_config_never_mutated
    (co : Collaborators) (c : RunData) (d : uploadConfigData)
    (hd : c.asUploadConfigData = some d) :
    (∀ ev ∈ (runUploadKubeadmConfig co c).2, ∀ x, eventCfgOf ev = some x → x = d.cfgVal)
    ∧ (∀ ev ∈ (runUploadKubeletConfig co c).2, ∀ x, eventCfgOf ev = some x → x = d.cfgVal)
    ∧ (∀ ev ∈ (runUploadKubeletConfig co c).2, ∀ client n s,
          ev = Event.annotateCRISocketCall client n s →
          n = d.cfgVal.NodeRegistration.Name ∧ s = d.cfgVal.NodeRegistration.CRISocket) := by
  refine ⟨?_, ?_, ?_⟩
  · intro ev hev x hx
    cases hcl : d.clientVal with
    | error e =>
        simp [runUploadKubeadmConfig, getUploadConfigData, uploadConfigData.Cfg,
          uploadConfigData.Client, hd, hcl] at hev
        rcases hev with h | h <;> subst h <;> simp [eventCfgOf] at hx
    | ok cl =>
        cases hu : co.UploadConfiguration d.cfgVal cl <;>
          (simp [runUploadKubeadmConfig, getUploadConfigData, uploadConfigData.Cfg,
            uploadConfigData.Client, hd, hcl, hu] at hev;
           rcases hev with h | h | h <;> subst h <;> simp_all [eventCfgOf])
  · intro ev hev x hx
    cases hcl : d.clientVal with
    | error e =>
        simp [runUploadKubeletConfig, getUploadConfigData, uploadConfigData.Cfg,
          uploadConfigData.Client, hd, hcl] at hev
        rcases hev with h | h <;> subst h <;> simp [eventCfgOf] at hx
    | ok cl =>
        cases hcm : co.CreateConfigMap d.cfgVal cl with
        | some e =>
            simp [runUploadKubeletConfig, getUploadConfigData, uploadConfigData.Cfg,
              uploadConfigData.Client, hd, hcl, hcm] at hev
            rcases hev with h | h | h <;> subst h <;> simp_all [eventCfgOf]
        | none =>
            cases han : co.AnnotateCRISocket cl d.cfgVal.NodeRegistration.Name
                d.cfgVal.NodeRegistration.CRISocket <;>
              (simp [runUploadKubeletConfig, getUploadConfigData, uploadConfigData.Cfg,
                uploadConfigData.Client, hd, hcl, hcm, han] at hev;
               rcases hev with h | h | h | h <;> subst h <;> simp_all [eventCfgOf])
  · intro ev hev client n s hev2
    cases hcl : d.clientVal with
    | error e =>
        simp [runUploadKubeletConfig, getUploadConfigData, uploadConfigData.Cfg,
          uploadConfigData.Client, hd, hcl] at hev
        rcases hev with h | h <;> subst h <;> simp at hev2
    | ok cl =>
        cases hcm : co.CreateConfigMap d.cfgVal cl with
        | some e =>
            simp [runUploadKubeletConfig, getUploadConfigData, uploadConfigData.Cfg,
              uploadConfigData.Client, hd, hcl, hcm] at hev
            rcases hev with h | h | h <;> subst h <;> simp_all
        | none =>
            cases han : co.AnnotateCRISocket cl d.cfgVal.NodeRegistration.Name
                d.cfgVal.NodeRegistration.CRISocket <;>
              (simp [runUploadKubeletConfig, getUploadConfigData, uploadConfigData.Cfg,
                uploadConfigData.Client, hd, hcl, hcm, han] at hev;
               rcases hev with h | h | h | h <;> subst h <;> simp_all)

theorem C9_witness : cfgW = dGood.cfgVal :=
  (C9_config_never_mutated coAllOK cGood dGood rfl).2.1
    (Event.createConfigMapCall cfgW clientW) (by decide) cfgW rfl

/-- C10: the resolve operation calls `Cfg()` then `Client()` (exactly
once each, in that order, whenever the capability check passes — also on
invocations where `Client()` fails); on `Client()` failure it returns
nil config, nil client and the error; on success it returns exactly the
value `Cfg()` produced, exactly the handle `Client()` produced, and a
nil error; on capability-check failure it returns nil config and client
with the contract-violation error and calls no accessor. -/
theorem C10_resolve_order_and_results
    (c : RunData) (d : uploadConfigData) :
    (c.asUploadConfigData = some d →
        (getUploadConfigData c).2 = [Event.cfgCall, Event.clientCall]
        ∧ (∀ e, d.clientVal = Except.error e →
            (getUploadConfigData c).1 = (none, none, some e))
        ∧ (∀ cl, d.clientVal = Except.ok cl →
            (getUploadConfigData c).1 = (some d.cfgVal, some cl, none)))
    ∧ (c.asUploadConfigData = none →
        (getUploadConfigData c).1
          = (none, none, some (errorsNew "upload-config phase invoked with an invalid data struct"))
        ∧ (getUploadConfigData c).2 = []) := by
  constructor
  · intro hd
    refine ⟨?_, ?_, ?_⟩
    · cases hcl : d.clientVal <;>
        simp [getUploadConfigData, uploadConfigData.Cfg, uploadConfigData.Client, hd, hcl]
    · intro e hcl
      simp [getUploadConfigData, uploadConfigData.Cfg, uploadConfigData.Client, hd, hcl]
    · intro cl hcl
      simp [getUploadConfigData, uploadConfigData.Cfg, uploadConfigData.Client, hd, hcl]
  · intro hd
    simp [getUploadConfigData, hd, errorsNew]

theorem C10_witness :
    (getUploadConfigData cGood).2 = [Event.cfgCall, Event.clientCall]
    ∧ (getUploadConfigData cNoData).1
        = (none, none, some (errorsNew "upload-config phase invoked with an invalid data struct")) :=
  ⟨((C10_resolve_order_and_results cGood dGood).1 rfl).1,
   ((C10_resolve_order_and_results cNoData dGood).2 rfl).1⟩

end UploadConfig
